import Mathlib

/-!
Shallow embedding of the SensorDataAPI data-producer core
(src/data_producer/models.py, machine.py, sensor_simulator.py).

Python floats are modelled as exact rationals, timestamps as rational
seconds since an arbitrary epoch, and every call to the `random` module
is modelled as an explicit draw parameter:
  - `random.random()` and each `random.uniform(a, b)` call take a unit
    draw `u` with `0 ≤ u ≤ 1`; the uniform value is `a + (b - a) * u`;
  - `random.randint(a, b)` takes an integer draw;
  - `random.choices(pop, weights)` takes a rational draw that is scanned
    against the cumulative weights, exactly as `bisect` does, with the
    final population element as the out-of-range clamp (Python passes
    `hi = len - 1`).
Python dicts keyed by machine id are modelled as association lists.
-/

namespace SensorDataAPI

/-! ### models.py -/

/-- models.py: `MachineState` enumeration. -/
inductive MachineState where
  | idle
  | active
  | maintenance
  | error
deriving DecidableEq, Repr

/-- The string value of each `MachineState` member. -/
def MachineState.value : MachineState → String
  | .idle => "idle"
  | .active => "active"
  | .maintenance => "maintenance"
  | .error => "error"

/-- models.py: `ProductType` enumeration. -/
inductive ProductType where
  | polyethylene
  | polypropylene
  | pvc
  | polystyrene
  | abs
deriving DecidableEq, Repr

/-- The string value of each `ProductType` member. -/
def ProductType.value : ProductType → String
  | .polyethylene => "Polyethylene"
  | .polypropylene => "Polypropylene"
  | .pvc => "PVC"
  | .polystyrene => "Polystyrene"
  | .abs => "ABS"

/-- models.py: `ERROR_CODES`, the error catalog, in insertion order. -/
def ERROR_CODES : List (String × String) :=
  [("E101", "Overtemperature detected"),
   ("E102", "Pressure drop detected"),
   ("E103", "Energy spike detected"),
   ("E104", "Vibration anomaly detected"),
   ("E105", "Cooling failure")]

/-! ### Python `round` and `random.uniform` models -/

/-- Python `round(x)` to the nearest integer, ties to even
(banker's rounding). -/
def pyround (x : ℚ) : ℤ :=
  if x - ⌊x⌋ = 1 / 2 then (if 2 ∣ ⌊x⌋ then ⌊x⌋ else ⌊x⌋ + 1) else round x

/-- Python `round(x, 1)`. -/
def round1q (x : ℚ) : ℚ := (pyround (x * 10) : ℚ) / 10

/-- Python `round(x, 2)`. -/
def round2q (x : ℚ) : ℚ := (pyround (x * 100) : ℚ) / 100

/-- Python `round(x, 3)`. -/
def round3q (x : ℚ) : ℚ := (pyround (x * 1000) : ℚ) / 1000

/-- `random.uniform(a, b)` realised from a unit draw `u ∈ [0, 1]`. -/
def unif (a b u : ℚ) : ℚ := a + (b - a) * u

/-! ### machine.py: the Machine entity -/

/-- machine.py: the mutable attributes of a `Machine` instance.
Timestamps are rational seconds; `temp_range`/`pressure_range` are the
`(min, max)` configuration tuples. -/
structure Machine where
  machine_id : String
  product_type : ProductType
  temp_range : ℚ × ℚ
  pressure_range : ℚ × ℚ
  energy_multiplier : ℚ
  max_vibration : ℚ
  current_state : MachineState
  last_state_change : ℚ
  last_update_time : ℚ
  error_code : Option String
  error_description : Option String
  uptime_hours : ℚ
  maintenance_cycle : ℚ
  total_runtime : ℚ
deriving DecidableEq, Repr

/-- machine.py: `Machine.__init__` (the `maintenance_cycle` draw from
`random.randint(200, 400)` is the explicit `maint0` parameter). -/
def Machine.init (machine_id : String) (product_type : ProductType)
    (temp_range pressure_range : ℚ × ℚ) (energy_profile : List (String × ℚ))
    (max_vibration : ℚ) (now : ℚ) (maint0 : ℚ) : Machine :=
  { machine_id := machine_id
    product_type := product_type
    temp_range := temp_range
    pressure_range := pressure_range
    energy_multiplier := (energy_profile.lookup product_type.value).getD 1
    max_vibration := max_vibration
    current_state := .idle
    last_state_change := now
    last_update_time := now
    error_code := none
    error_description := none
    uptime_hours := 0
    maintenance_cycle := maint0
    total_runtime := 0 }

/-- machine.py: `min_state_duration` (minutes). -/
def min_state_duration : MachineState → ℚ
  | .active => 15
  | .idle => 5
  | .maintenance => 60
  | .error => 10

/-- machine.py: `Machine._should_change_state`; `r` is the
`random.random()` draw. -/
def should_change_state (m : Machine) (current_time : ℚ) (r : ℚ) : Bool :=
  let time_in_state := (current_time - m.last_state_change) / 60
  if time_in_state < min_state_duration m.current_state then false
  else decide (r < min (1 / 10) (time_in_state / 1000))

/-- machine.py: `shift_modifiers` as the pair of factors applied to the
`active` and `maintenance` entries of a transition row; an unknown shift
yields the empty modifier dict, i.e. both factors 1. -/
def shiftFactors (shift : String) : ℚ × ℚ :=
  if shift = "day" then (6 / 5, 3 / 2)
  else if shift = "evening" then (1, 4 / 5)
  else if shift = "night" then (3 / 5, 3 / 10)
  else (1, 1)

/-- machine.py: `transition_matrix`, each row in dict insertion order. -/
def transitionRow : MachineState → List (MachineState × ℚ)
  | .active =>
      [(.active, 85 / 100), (.idle, 10 / 100), (.error, 3 / 100), (.maintenance, 2 / 100)]
  | .idle =>
      [(.active, 70 / 100), (.idle, 25 / 100), (.error, 2 / 100), (.maintenance, 3 / 100)]
  | .error =>
      [(.active, 60 / 100), (.idle, 20 / 100), (.error, 5 / 100), (.maintenance, 15 / 100)]
  | .maintenance =>
      [(.active, 70 / 100), (.idle, 25 / 100), (.error, 2 / 100), (.maintenance, 3 / 100)]

/-- machine.py: the transition row after the shift modifiers scale its
`active` and `maintenance` entries. -/
def modifiedRow (s : MachineState) (shift : String) : List (MachineState × ℚ) :=
  let f := shiftFactors shift
  (transitionRow s).map fun p =>
    match p.1 with
    | .active => (p.1, p.2 * f.1)
    | .maintenance => (p.1, p.2 * f.2)
    | _ => p

/-- `sum(probabilities.values())` for a transition row. -/
def rowTotal (l : List (MachineState × ℚ)) : ℚ := (l.map Prod.snd).sum

/-- machine.py: `{state: prob / total_prob for ...}`, the renormalised row. -/
def normalizeRow (l : List (MachineState × ℚ)) : List (MachineState × ℚ) :=
  l.map fun p => (p.1, p.2 / rowTotal l)

/-- machine.py: the cumulative-distribution scan in
`Machine._calculate_next_state` (`cumulative_prob += prob; if rand_val <=
cumulative_prob: return state`). -/
def selectCumulative : List (MachineState × ℚ) → ℚ → ℚ → Option MachineState
  | [], _, _ => none
  | (s, p) :: rest, rand_val, acc =>
      if rand_val ≤ acc + p then some s else selectCumulative rest rand_val (acc + p)

/-- The two draws consumed by `Machine._calculate_next_state`: the 30%
maintenance-override draw and `rand_val`. -/
structure NextDraws where
  maint_r : ℚ
  state_r : ℚ
deriving Repr

/-- machine.py: `Machine._calculate_next_state`. -/
def calculate_next_state (m : Machine) (shift : String) (d : NextDraws) : MachineState :=
  if m.uptime_hours > m.maintenance_cycle ∧ d.maint_r < 3 / 10 then
    MachineState.maintenance
  else
    let probabilities := modifiedRow m.current_state shift
    if rowTotal probabilities = 0 then m.current_state
    else (selectCumulative (normalizeRow probabilities) d.state_r 0).getD m.current_state

/-! ### machine.py: error-code assignment -/

/-- machine.py: `product_error_weights` in `Machine._assign_error_code`,
keyed by the product-type string, each weight dict in insertion order. -/
def product_error_weights : List (String × List (String × ℚ)) :=
  [("Polyethylene",
      [("E101", 4 / 10), ("E102", 3 / 10), ("E103", 2 / 10), ("E104", 1 / 10), ("E105", 0)]),
   ("PVC",
      [("E101", 5 / 10), ("E102", 2 / 10), ("E103", 2 / 10), ("E105", 1 / 10), ("E104", 0)]),
   ("Polypropylene",
      [("E102", 4 / 10), ("E104", 3 / 10), ("E101", 2 / 10), ("E103", 1 / 10), ("E105", 0)]),
   ("Polystyrene",
      [("E104", 4 / 10), ("E102", 3 / 10), ("E101", 2 / 10), ("E105", 1 / 10), ("E103", 0)]),
   ("ABS",
      [("E103", 4 / 10), ("E104", 3 / 10), ("E101", 2 / 10), ("E102", 1 / 10), ("E105", 0)])]

/-- machine.py: `default_weights` in `Machine._assign_error_code`. -/
def default_weights : List (String × ℚ) :=
  [("E101", 3 / 10), ("E102", 3 / 10), ("E103", 2 / 10), ("E104", 1 / 10), ("E105", 1 / 10)]

/-- machine.py: `specific_weights = product_error_weights.get(product, default_weights)`. -/
def specific_weights (product : String) : List (String × ℚ) :=
  (product_error_weights.lookup product).getD default_weights

/-- machine.py: `weights_for_choice = {code: specific_weights.get(code, 0.0)
for code in ERROR_CODES.keys()}`. -/
def weights_for_choice (product : String) : List (String × ℚ) :=
  ERROR_CODES.map fun p => (p.1, ((specific_weights product).lookup p.1).getD 0)

/-- machine.py: `possible_errors = {code: w for code, w in ... if w > 0}`. -/
def possible_errors (w : List (String × ℚ)) : List (String × ℚ) :=
  w.filter fun p => decide (0 < p.2)

/-- `random.choices(population, weights)` for one draw `r`: scan the
cumulative weights, clamping out-of-range draws to the last element
(Python's `bisect(cum_weights, r, 0, hi)` with `hi = len - 1`). -/
def weighted_pick : List (String × ℚ) → ℚ → Option String
  | [], _ => none
  | (c, w) :: rest, r =>
      if rest.isEmpty then some c
      else if r < w then some c
      else weighted_pick rest (r - w)

/-- machine.py: the choice logic of `Machine._assign_error_code` (lines
216-230): filter the product weights to positive entries, falling back to
the positive `default_weights` entries, then to the first catalog key. -/
def choose_error_code (w : List (String × ℚ)) (r : ℚ) : Option String :=
  let possible := possible_errors w
  if possible.isEmpty then
    let possible2 := possible_errors default_weights
    if possible2.isEmpty then some (ERROR_CODES.headI.1)
    else weighted_pick possible2 r
  else weighted_pick possible r

/-- machine.py: `Machine._assign_error_code`; `r` is the weighted-choice
draw. `self.error_description = ERROR_CODES[self.error_code]` is modelled
as the catalog lookup (whose key is always present, as proved below). -/
def assign_error_code (m : Machine) (r : ℚ) : Machine :=
  match choose_error_code (weights_for_choice m.product_type.value) r with
  | some c => { m with error_code := some c, error_description := ERROR_CODES.lookup c }
  | none => m

/-! ### machine.py: `update_state` -/

/-- The draws consumed by one `Machine.update_state` call: the
`_should_change_state` draw, the `_calculate_next_state` draws, the
`random.randint(200, 400)` maintenance-cycle redraw, and the
`_assign_error_code` draw. -/
structure UpdateDraws where
  change_r : ℚ
  next : NextDraws
  maint_redraw : ℚ
  err_r : ℚ
deriving Repr

/-- machine.py: the body of `if new_state != self.current_state:` in
`Machine.update_state` — reset uptime and redraw the maintenance cycle
when leaving MAINTENANCE, set the new state and `last_state_change`, then
assign or clear the error code. -/
def transition_to (m : Machine) (new_state : MachineState) (current_time : ℚ)
    (maint_redraw err_r : ℚ) : Machine :=
  let m1 :=
    if m.current_state = .maintenance then
      { m with uptime_hours := 0, maintenance_cycle := maint_redraw }
    else m
  let m2 := { m1 with current_state := new_state, last_state_change := current_time }
  if new_state = .error then assign_error_code m2 err_r
  else { m2 with error_code := none, error_description := none }

/-- machine.py: the `if self._should_change_state(...)` block of
`Machine.update_state`. -/
def apply_transition (m : Machine) (current_time : ℚ) (shift : String)
    (d : UpdateDraws) : Machine :=
  if should_change_state m current_time d.change_r then
    let new_state := calculate_next_state m shift d.next
    if new_state ≠ m.current_state then
      transition_to m new_state current_time d.maint_redraw d.err_r
    else m
  else m

/-- machine.py: the uptime-accrual tail of `Machine.update_state` —
accrue `(current_time - last_update_time) / 3600` onto `uptime_hours` and
`total_runtime` while ACTIVE, then set `last_update_time`. -/
def accrue (m : Machine) (current_time : ℚ) : Machine :=
  let time_elapsed_hours := (current_time - m.last_update_time) / 3600
  let m1 :=
    if m.current_state = .active then
      { m with uptime_hours := m.uptime_hours + time_elapsed_hours,
               total_runtime := m.total_runtime + time_elapsed_hours }
    else m
  { m1 with last_update_time := current_time }

/-- machine.py: `Machine.update_state`. -/
def update_state (m : Machine) (current_time : ℚ) (shift : String)
    (d : UpdateDraws) : Machine :=
  accrue (apply_transition m current_time shift d) current_time

/-! ### machine.py: `generate_sensor_data` -/

/-- The sensor-data record built by `Machine.generate_sensor_data`
(the wire shape of one reading). -/
structure SensorReading where
  timestamp : ℚ
  machine_id : String
  state : String
  temperature : ℚ
  pressure : ℚ
  energy_consumption : ℚ
  vibration : ℚ
  humidity : ℚ
  production_rate : ℤ
  raw_material_quality : ℚ
  operator_override : Bool
  cooling_status : String
  product_type : String
  uptime_hours : ℚ
  error_code : Option String
  error_description : Option String
deriving DecidableEq, Repr

/-- The draws consumed by one `Machine.generate_sensor_data` call: unit
draws for the `random.uniform` / `random.random` calls and an integer
draw for `random.randint`. -/
structure SampleDraws where
  u_temp : ℚ
  u_pres : ℚ
  u_energy : ℚ
  u_vib : ℚ
  n_prod : ℤ
  u_humid : ℚ
  u_quality : ℚ
  u_override : ℚ
deriving Repr

/-- machine.py: the state-based block of `Machine.generate_sensor_data`
choosing `(temp_variation, pressure_variation, energy, vibration,
production_rate)`. -/
def state_variates (m : Machine) (d : SampleDraws) : ℚ × ℚ × ℚ × ℚ × ℤ :=
  match m.current_state with
  | .active =>
      (unif (-5) 10 d.u_temp, unif (-5 / 100) (10 / 100) d.u_pres,
       unif (8 / 10) (12 / 10) d.u_energy * m.energy_multiplier,
       unif (1 / 10) (4 / 10) d.u_vib, d.n_prod)
  | .idle =>
      (unif (-10) (-5) d.u_temp, unif (-10 / 100) (-5 / 100) d.u_pres,
       unif (1 / 10) (3 / 10) d.u_energy * m.energy_multiplier,
       unif (1 / 100) (1 / 10) d.u_vib, 0)
  | .maintenance =>
      (unif (-15) (-10) d.u_temp, unif (-15 / 100) (-10 / 100) d.u_pres,
       unif (5 / 100) (2 / 10) d.u_energy * m.energy_multiplier,
       unif 0 (5 / 100) d.u_vib, 0)
  | .error =>
      let tp :=
        if m.error_code = some "E101" then
          (unif 15 25 d.u_temp, unif (-5 / 100) (5 / 100) d.u_pres)
        else if m.error_code = some "E102" then
          (unif (-5) 5 d.u_temp, unif (-30 / 100) (-15 / 100) d.u_pres)
        else if m.error_code = some "E103" then
          (unif 5 15 d.u_temp, unif (5 / 100) (15 / 100) d.u_pres)
        else if m.error_code = some "E104" then
          (unif (-5) 5 d.u_temp, unif (-5 / 100) (5 / 100) d.u_pres)
        else
          (unif 10 20 d.u_temp, unif (-10 / 100) (10 / 100) d.u_pres)
      (tp.1, tp.2,
       unif (3 / 10) (15 / 10) d.u_energy * m.energy_multiplier,
       if m.error_code = some "E104" then unif (5 / 10) m.max_vibration d.u_vib
       else unif (1 / 10) (4 / 10) d.u_vib,
       d.n_prod)

/-- machine.py: `Machine.generate_sensor_data`. -/
def generate_sensor_data (m : Machine) (timestamp : ℚ) (d : SampleDraws) : SensorReading :=
  let base_temp := (m.temp_range.1 + m.temp_range.2) / 2
  let base_pressure := (m.pressure_range.1 + m.pressure_range.2) / 2
  let v := state_variates m d
  let temperature := max 0 (base_temp + v.1)
  let pressure := max 0 (base_pressure + v.2.1)
  { timestamp := timestamp
    machine_id := m.machine_id
    state := m.current_state.value
    temperature := round2q temperature
    pressure := round3q pressure
    energy_consumption := round3q v.2.2.1
    vibration := round3q v.2.2.2.1
    humidity := round2q (unif 45 65 d.u_humid)
    production_rate := v.2.2.2.2
    raw_material_quality := round2q (unif (7 / 10) 1 d.u_quality)
    operator_override := decide (d.u_override < 5 / 100)
    cooling_status := if m.error_code = some "E105" then "FAIL" else "OK"
    product_type := m.product_type.value
    uptime_hours := round1q m.uptime_hours
    error_code := if m.current_state = .error then m.error_code else none
    error_description := if m.current_state = .error then m.error_description else none }

/-! ### sensor_simulator.py -/

/-- sensor_simulator.py: `energy_profile`. -/
def energy_profile : List (String × ℚ) :=
  [("Polyethylene", 11 / 10), ("Polypropylene", 1), ("PVC", 13 / 10),
   ("Polystyrene", 21 / 20), ("ABS", 19 / 20)]

/-- sensor_simulator.py: `temp_ranges`. -/
def temp_ranges : List (String × (ℚ × ℚ)) :=
  [("Polyethylene", (85, 125)), ("Polypropylene", (80, 120)), ("PVC", (90, 135)),
   ("Polystyrene", (75, 115)), ("ABS", (82, 122))]

/-- sensor_simulator.py: `pressure_ranges`. -/
def pressure_ranges : List (String × (ℚ × ℚ)) :=
  [("Polyethylene", (4 / 10, 9 / 10)), ("Polypropylene", (35 / 100, 85 / 100)),
   ("PVC", (45 / 100, 95 / 100)), ("Polystyrene", (3 / 10, 8 / 10)),
   ("ABS", (38 / 100, 88 / 100))]

/-- sensor_simulator.py: `product_types = list(ProductType)`. -/
def product_types : List ProductType :=
  [.polyethylene, .polypropylene, .pvc, .polystyrene, .abs]

/-- sensor_simulator.py: `initial_states`, 7 ACTIVE + 2 IDLE + 1 MAINTENANCE. -/
def initial_states : List MachineState :=
  List.replicate 7 .active ++ List.replicate 2 .idle ++ List.replicate 1 .maintenance

/-- The draws consumed when the simulator constructs one machine: the
`Machine.__init__` maintenance-cycle draw, the max-vibration draw, the
`random.choice(initial_states)` index, the stagger offset in seconds, and
the error-code draw for the (unreachable) initial-ERROR branch. -/
structure InitDraws where
  maint0 : ℚ
  maxv : ℚ
  choice : ℕ
  stagger : ℚ
  err_r : ℚ
deriving Repr

/-- sensor_simulator.py: the body of the machine-construction loop in
`SensorSimulator.__init__` for index `i` (0-based): product type
round-robin, product-specific ranges with defaults, randomized initial
state (with the defensive initial-ERROR error-code assignment), and the
staggered `last_state_change`. -/
def init_unit (i : ℕ) (now : ℚ) (d : InitDraws) : Machine :=
  let product := product_types.getD (i % product_types.length) .polyethylene
  let machine_id := "Machine_" ++ toString (i + 1)
  let temp_range := (temp_ranges.lookup product.value).getD (80, 130)
  let pressure_range := (pressure_ranges.lookup product.value).getD (3 / 10, 1)
  let machine := Machine.init machine_id product temp_range pressure_range
      energy_profile d.maxv now d.maint0
  let machine1 :=
    { machine with
        current_state := initial_states.getD (d.choice % initial_states.length) .active }
  let machine2 :=
    if machine1.current_state = .error then assign_error_code machine1 d.err_r
    else machine1
  { machine2 with last_state_change := now - d.stagger }

/-- sensor_simulator.py: the simulator state shared between the driver
loop and the public operations. -/
structure Simulator where
  machines : List (String × Machine)
  latest_snapshot : List (String × SensorReading)
  update_interval : ℚ
  simulation_speed : ℚ
deriving Repr

/-- Python dict assignment `d[k] = v` on an association list: replace the
first entry with key `k`, else append. -/
def setEntry {α : Type} : List (String × α) → String → α → List (String × α)
  | [], k, v => [(k, v)]
  | (a, b) :: rest, k, v =>
      if a == k then (k, v) :: rest else (a, b) :: setEntry rest k v

/-- The draws consumed by one `SensorSimulator.force_state_change` call:
the `_assign_error_code` draw and the `generate_sensor_data` draws. -/
structure ForceDraws where
  err_r : ℚ
  sample : SampleDraws
deriving Repr

/-- sensor_simulator.py: the machine mutation performed inside
`SensorSimulator.force_state_change` on the targeted machine — set the
state and `last_state_change` unconditionally, then assign or clear the
error code. -/
def force_machine (m : Machine) (new_state : MachineState) (now : ℚ) (err_r : ℚ) : Machine :=
  let m1 := { m with current_state := new_state, last_state_change := now }
  if new_state = .error then assign_error_code m1 err_r
  else { m1 with error_code := none, error_description := none }

/-- sensor_simulator.py: `SensorSimulator.force_state_change`. -/
def force_state_change (sim : Simulator) (machine_id : String)
    (new_state : MachineState) (now : ℚ) (d : ForceDraws) : Bool × Simulator :=
  match sim.machines.lookup machine_id with
  | some machine =>
      let machine1 := force_machine machine new_state now d.err_r
      let reading := generate_sensor_data machine1 now d.sample
      (true,
       { sim with
           machines := setEntry sim.machines machine_id machine1,
           latest_snapshot := setEntry sim.latest_snapshot machine_id reading })
  | none => (false, sim)

/-- sensor_simulator.py: `SensorSimulator.set_simulation_speed`. -/
def set_simulation_speed (sim : Simulator) (speed : ℚ) : Simulator :=
  { sim with simulation_speed := max (1 / 10) (min 10 speed) }

/-! ### Concrete fixtures used by witness theorems -/

/-- A freshly constructed Polyethylene machine (witness fixture). -/
def mach0 : Machine :=
  Machine.init "Machine_1" .polyethylene (85, 125) (4 / 10, 9 / 10) energy_profile (7 / 10) 0 300

/-- `mach0` in the ACTIVE state (witness fixture). -/
def machAct : Machine := { mach0 with current_state := .active }

/-- `mach0` in MAINTENANCE with 5 accrued uptime hours (witness fixture). -/
def machMaint : Machine := { mach0 with current_state := .maintenance, uptime_hours := 5 }

/-- `mach0` in ERROR with code E101 (witness fixture). -/
def machErr : Machine :=
  { mach0 with current_state := .error, error_code := some "E101",
               error_description := some "Overtemperature detected" }

/-- A one-machine simulator holding `machMaint` (witness fixture). -/
def sim0 : Simulator :=
  { machines := [("Machine_1", machMaint)], latest_snapshot := [],
    update_interval := 5, simulation_speed := 1 }

/-- A one-machine simulator holding `machErr` (witness fixture). -/
def simErr : Simulator :=
  { machines := [("Machine_1", machErr)], latest_snapshot := [],
    update_interval := 5, simulation_speed := 1 }

/-- A one-machine simulator holding `machAct` (witness fixture). -/
def simAct : Simulator :=
  { machines := [("Machine_1", machAct)], latest_snapshot := [],
    update_interval := 5, simulation_speed := 1 }

/-- Fixed update draws (witness fixture). -/
def draws0 : UpdateDraws :=
  { change_r := 1, next := { maint_r := 1, state_r := 0 }, maint_redraw := 300, err_r := 0 }

/-- Fixed sampling draws (witness fixture). -/
def sample0 : SampleDraws :=
  { u_temp := 1, u_pres := 0, u_energy := 0, u_vib := 0, n_prod := 0,
    u_humid := 0, u_quality := 0, u_override := 1 }

/-- Fixed force-state draws (witness fixture). -/
def force0 : ForceDraws := { err_r := 1 / 2, sample := sample0 }

/-! ### Helper lemmas: Python rounding -/

theorem pyround_nonneg {x : ℚ} (h : 0 ≤ x) : 0 ≤ pyround x := by
  have hf : (0 : ℤ) ≤ ⌊x⌋ := Int.floor_nonneg.mpr h
  unfold pyround
  split_ifs with h1 h2
  · exact hf
  · omega
  · rw [round_eq]
    exact Int.floor_nonneg.mpr (by linarith)

theorem le_pyround (x : ℚ) : x - 1 / 2 ≤ (pyround x : ℚ) := by
  unfold pyround
  split_ifs with h1 h2
  · have : (⌊x⌋ : ℚ) = x - 1 / 2 := by linarith
    simp [this]
  · push_cast
    linarith
  · rw [round_eq]
    have := Int.lt_floor_add_one (x + 1 / 2)
    have hle := Int.floor_le (x + 1 / 2)
    have : (x + 1 / 2) - 1 < (⌊x + 1 / 2⌋ : ℚ) := by
      have := Int.sub_one_lt_floor (x + 1 / 2)
      linarith
    linarith

theorem round2q_nonneg {x : ℚ} (h : 0 ≤ x) : 0 ≤ round2q x := by
  unfold round2q
  have := pyround_nonneg (show (0 : ℚ) ≤ x * 100 by positivity)
  positivity

theorem round3q_nonneg {x : ℚ} (h : 0 ≤ x) : 0 ≤ round3q x := by
  unfold round3q
  have := pyround_nonneg (show (0 : ℚ) ≤ x * 1000 by positivity)
  positivity

theorem round2q_lb (x : ℚ) : x - 1 / 200 ≤ round2q x := by
  unfold round2q
  have h := le_pyround (x * 100)
  have h100 : (0 : ℚ) < 100 := by norm_num
  rw [le_div_iff₀ h100]
  linarith

/-! ### Helper lemmas: weighted error-code choice -/

theorem weighted_pick_mem (l : List (String × ℚ)) :
    ∀ r : ℚ, l ≠ [] → ∃ p, p ∈ l ∧ weighted_pick l r = some p.1 := by
  induction l with
  | nil => intro r h; exact absurd rfl h
  | cons x rest ih =>
    intro r _
    obtain ⟨c, w⟩ := x
    by_cases hre : rest.isEmpty
    · exact ⟨(c, w), List.mem_cons_self _ _, by simp [weighted_pick, hre]⟩
    · by_cases hr : r < w
      · exact ⟨(c, w), List.mem_cons_self _ _, by simp [weighted_pick, hre, hr]⟩
      · have hne : rest ≠ [] := by
          intro hnil
          rw [hnil] at hre
          exact hre rfl
        obtain ⟨p, hp, heq⟩ := ih (r - w) hne
        exact ⟨p, List.mem_cons_of_mem _ hp, by simp [weighted_pick, hre, hr, heq]⟩

theorem mem_possible_errors {w : List (String × ℚ)} {p : String × ℚ}
    (h : p ∈ possible_errors w) : p ∈ w ∧ 0 < p.2 := by
  unfold possible_errors at h
  have h1 := List.mem_of_mem_filter h
  have h2 := List.of_mem_filter h
  simp only [decide_eq_true_eq] at h2
  exact ⟨h1, h2⟩

theorem keys_weights_for_choice (s : String) :
    (weights_for_choice s).map Prod.fst = ERROR_CODES.map Prod.fst := by
  unfold weights_for_choice
  rw [List.map_map]
  rfl

theorem possible_default_ne_nil : possible_errors default_weights ≠ [] := by
  simp [possible_errors, default_weights]

theorem default_keys_subset :
    ∀ p ∈ default_weights, p.1 ∈ ERROR_CODES.map Prod.fst := by
  intro p hp
  simp only [default_weights, List.mem_cons, List.not_mem_nil, or_false] at hp
  rcases hp with h | h | h | h | h <;> subst h <;> simp [ERROR_CODES]

theorem headI_mem_keys : ERROR_CODES.headI.1 ∈ ERROR_CODES.map Prod.fst := by
  simp [ERROR_CODES]

theorem choose_error_code_catalog (s : String) (r : ℚ) :
    ∃ c, choose_error_code (weights_for_choice s) r = some c ∧
      c ∈ ERROR_CODES.map Prod.fst := by
  unfold choose_error_code
  by_cases h1 : (possible_errors (weights_for_choice s)).isEmpty
  · have h2 : (possible_errors default_weights).isEmpty = false := by
      cases he : possible_errors default_weights with
      | nil => exact absurd he possible_default_ne_nil
      | cons a l => rfl
    obtain ⟨p, hp, heq⟩ :=
      weighted_pick_mem (possible_errors default_weights) r possible_default_ne_nil
    refine ⟨p.1, ?_, default_keys_subset p (mem_possible_errors hp).1⟩
    simp [h1, h2, heq]
  · have hne : possible_errors (weights_for_choice s) ≠ [] := by
      intro hnil
      rw [hnil] at h1
      exact h1 rfl
    obtain ⟨p, hp, heq⟩ := weighted_pick_mem (possible_errors (weights_for_choice s)) r hne
    refine ⟨p.1, ?_, ?_⟩
    · simp [h1, heq]
    · rw [← keys_weights_for_choice s]
      exact List.mem_map_of_mem Prod.fst (mem_possible_errors hp).1

theorem assign_error_code_fields (m : Machine) (r : ℚ) :
    ∃ c, choose_error_code (weights_for_choice m.product_type.value) r = some c ∧
      c ∈ ERROR_CODES.map Prod.fst ∧
      assign_error_code m r =
        { m with error_code := some c, error_description := ERROR_CODES.lookup c } := by
  obtain ⟨c, hc, hmem⟩ := choose_error_code_catalog m.product_type.value r
  exact ⟨c, hc, hmem, by simp [assign_error_code, hc]⟩

theorem catalog_lookup_ne_none :
    ∀ c ∈ ERROR_CODES.map Prod.fst, ERROR_CODES.lookup c ≠ none := by
  intro c hc
  simp only [ERROR_CODES, List.map_cons, List.map_nil, List.mem_cons,
    List.not_mem_nil, or_false] at hc
  rcases hc with h | h | h | h | h <;> subst h <;> decide

theorem assign_error_code_preserves (m : Machine) (r : ℚ) :
    (assign_error_code m r).current_state = m.current_state ∧
    (assign_error_code m r).uptime_hours = m.uptime_hours ∧
    (assign_error_code m r).maintenance_cycle = m.maintenance_cycle ∧
    (assign_error_code m r).last_update_time = m.last_update_time ∧
    (assign_error_code m r).last_state_change = m.last_state_change ∧
    (assign_error_code m r).product_type = m.product_type := by
  obtain ⟨c, _, _, heq⟩ := assign_error_code_fields m r
  rw [heq]
  exact ⟨rfl, rfl, rfl, rfl, rfl, rfl⟩

theorem assign_error_code_some (m : Machine) (r : ℚ) :
    (assign_error_code m r).error_code ≠ none ∧
    (assign_error_code m r).error_description ≠ none := by
  obtain ⟨c, _, hmem, heq⟩ := assign_error_code_fields m r
  rw [heq]
  exact ⟨by simp, catalog_lookup_ne_none c hmem⟩

/-! ### Helper lemmas: update_state structure -/

theorem accrue_preserves (m : Machine) (t : ℚ) :
    (accrue m t).current_state = m.current_state ∧
    (accrue m t).error_code = m.error_code ∧
    (accrue m t).error_description = m.error_description ∧
    (accrue m t).maintenance_cycle = m.maintenance_cycle ∧
    (accrue m t).last_state_change = m.last_state_change := by
  unfold accrue
  split_ifs <;> exact ⟨rfl, rfl, rfl, rfl, rfl⟩

theorem accrue_uptime (m : Machine) (t : ℚ) :
    (accrue m t).uptime_hours =
      m.uptime_hours +
        (if m.current_state = .active then (t - m.last_update_time) / 3600 else 0) := by
  unfold accrue
  split_ifs <;> simp

theorem apply_transition_cases (m : Machine) (t : ℚ) (shift : String) (d : UpdateDraws) :
    apply_transition m t shift d = m ∨
    (calculate_next_state m shift d.next ≠ m.current_state ∧
      apply_transition m t shift d =
        transition_to m (calculate_next_state m shift d.next) t d.maint_redraw d.err_r) := by
  by_cases h1 : should_change_state m t d.change_r
  · by_cases h2 : calculate_next_state m shift d.next = m.current_state
    · exact Or.inl (by simp [apply_transition, h1, h2])
    · exact Or.inr ⟨h2, by simp [apply_transition, h1, h2]⟩
  · exact Or.inl (by simp [apply_transition, h1])

theorem apply_transition_of_no_change (m : Machine) (t : ℚ) (shift : String)
    (d : UpdateDraws) (h : should_change_state m t d.change_r = false) :
    apply_transition m t shift d = m := by
  unfold apply_transition
  rw [h]
  simp

theorem transition_to_eq (m : Machine) (ns : MachineState) (t a b : ℚ) :
    transition_to m ns t a b =
      (let base : Machine :=
        { m with
            uptime_hours := if m.current_state = .maintenance then 0 else m.uptime_hours,
            maintenance_cycle :=
              if m.current_state = .maintenance then a else m.maintenance_cycle,
            current_state := ns,
            last_state_change := t }
       if ns = .error then assign_error_code base b
       else { base with error_code := none, error_description := none }) := by
  by_cases h1 : m.current_state = .maintenance <;>
    by_cases h2 : ns = .error <;>
      simp [transition_to, h1, h2]

theorem transition_to_state (m : Machine) (ns : MachineState) (t a b : ℚ) :
    (transition_to m ns t a b).current_state = ns ∧
    (transition_to m ns t a b).last_update_time = m.last_update_time := by
  rw [transition_to_eq]
  by_cases h2 : ns = .error
  · simp only [if_pos h2]
    constructor
    · rw [(assign_error_code_preserves _ b).1]
    · rw [(assign_error_code_preserves _ b).2.2.2.1]
  · simp [h2]

theorem apply_transition_preserves_lut (m : Machine) (t : ℚ) (shift : String)
    (d : UpdateDraws) : (apply_transition m t shift d).last_update_time = m.last_update_time := by
  rcases apply_transition_cases m t shift d with h | ⟨_, h⟩ <;> rw [h]
  · exact (transition_to_state _ _ _ _ _).2

theorem transition_to_uptime_of_maintenance (m : Machine) (ns : MachineState) (t a b : ℚ)
    (h : m.current_state = .maintenance) :
    (transition_to m ns t a b).uptime_hours = 0 ∧
    (transition_to m ns t a b).maintenance_cycle = a := by
  rw [transition_to_eq]
  by_cases h2 : ns = .error
  · simp only [if_pos h2]
    constructor
    · rw [(assign_error_code_preserves _ b).2.1]
      simp [h]
    · rw [(assign_error_code_preserves _ b).2.2.1]
      simp [h]
  · simp only [if_neg h2]
    constructor <;> simp [h]

theorem transition_to_uptime_of_not_maintenance (m : Machine) (ns : MachineState) (t a b : ℚ)
    (h : ¬m.current_state = .maintenance) :
    (transition_to m ns t a b).uptime_hours = m.uptime_hours ∧
    (transition_to m ns t a b).maintenance_cycle = m.maintenance_cycle := by
  rw [transition_to_eq]
  by_cases h2 : ns = .error
  · simp only [if_pos h2]
    constructor
    · rw [(assign_error_code_preserves _ b).2.1]
      simp [h]
    · rw [(assign_error_code_preserves _ b).2.2.1]
      simp [h]
  · simp only [if_neg h2]
    constructor <;> simp [h]

/-! ### The state/error-code invariant (claim C1) -/

/-- The invariant of claim C1: a unit is in ERROR exactly when its error
code (and its error description) is non-null. -/
def errorInvariant (m : Machine) : Prop :=
  (m.current_state = .error ↔ m.error_code ≠ none) ∧
  (m.current_state = .error ↔ m.error_description ≠ none)

theorem transition_to_invariant (m : Machine) (ns : MachineState) (t a b : ℚ) :
    errorInvariant (transition_to m ns t a b) := by
  have hstate := (transition_to_state m ns t a b).1
  unfold errorInvariant
  rw [transition_to_eq] at hstate ⊢
  by_cases h2 : ns = .error
  · simp only [if_pos h2] at hstate ⊢
    constructor <;> rw [hstate, h2] <;> simp only [true_iff]
    · exact (assign_error_code_some _ b).1
    · exact (assign_error_code_some _ b).2
  · simp only [if_neg h2] at hstate ⊢
    constructor <;> simp [h2]

theorem force_machine_invariant (m : Machine) (s : MachineState) (now r : ℚ) :
    errorInvariant (force_machine m s now r) := by
  unfold force_machine
  by_cases h : s = .error
  · simp only [if_pos h]
    constructor <;>
      rw [(assign_error_code_preserves _ r).1] <;> simp only [h, true_iff]
    · exact (assign_error_code_some _ r).1
    · exact (assign_error_code_some _ r).2
  · simp only [if_neg h]
    constructor <;> simp [h]

theorem assign_invariant_of_error (m : Machine) (r : ℚ)
    (h : m.current_state = .error) : errorInvariant (assign_error_code m r) := by
  have hc := (assign_error_code_some m r).1
  have hd := (assign_error_code_some m r).2
  have hs : (assign_error_code m r).current_state = .error := by
    rw [(assign_error_code_preserves m r).1, h]
  exact ⟨⟨fun _ => hc, fun _ => hs⟩, ⟨fun _ => hd, fun _ => hs⟩⟩

theorem errorInvariant_set_lsc (m : Machine) (x : ℚ) :
    errorInvariant { m with last_state_change := x } ↔ errorInvariant m := Iff.rfl

theorem init_unit_invariant (i : ℕ) (now : ℚ) (d : InitDraws) :
    errorInvariant (init_unit i now d) := by
  unfold init_unit
  set s0 := initial_states.getD (d.choice % initial_states.length) MachineState.active
    with hs0
  by_cases h : s0 = .error
  · simp [Machine.init, h, errorInvariant_set_lsc]
    exact assign_invariant_of_error _ d.err_r rfl
  · simp [Machine.init, h, errorInvariant_set_lsc]
    constructor <;> simp [h]

theorem update_state_invariant (m : Machine) (t : ℚ) (shift : String) (d : UpdateDraws)
    (h : errorInvariant m) : errorInvariant (update_state m t shift d) := by
  unfold update_state
  have hp := accrue_preserves (apply_transition m t shift d) t
  have hi : errorInvariant (apply_transition m t shift d) := by
    rcases apply_transition_cases m t shift d with heq | ⟨_, heq⟩ <;> rw [heq]
    · exact h
    · exact transition_to_invariant _ _ _ _ _
  unfold errorInvariant at hi ⊢
  rw [hp.1, hp.2.1, hp.2.2.1]
  exact hi

theorem state_value_eq_error (s : MachineState) : s.value = "error" ↔ s = .error := by
  cases s <;> simp [MachineState.value]

theorem reading_error_fields (m : Machine) (t : ℚ) (d : SampleDraws)
    (h : errorInvariant m) :
    ((generate_sensor_data m t d).error_code ≠ none ↔
      (generate_sensor_data m t d).state = "error") ∧
    ((generate_sensor_data m t d).error_description ≠ none ↔
      (generate_sensor_data m t d).state = "error") := by
  by_cases hs : m.current_state = .error
  · have hcode : m.error_code ≠ none := h.1.mp hs
    have hdesc : m.error_description ≠ none := h.2.mp hs
    constructor <;> simp [generate_sensor_data, hs, hcode, hdesc, MachineState.value]
  · have hval : ¬m.current_state.value = "error" := fun hv =>
      hs ((state_value_eq_error m.current_state).mp hv)
    constructor <;> simp [generate_sensor_data, hs, hval]

/-! ### Claim theorems -/

/-- Claim C1: after initialization and after every operation (tick
advance, sample, forced state change), a unit is in ERROR exactly when
its error code is non-null (the code being cleared on any transition away
from ERROR), and a published reading has non-null error_code and
error_description exactly when its state field is "error". -/
theorem C1_error_state_iff_error_code :
    (∀ (i : ℕ) (now : ℚ) (d : InitDraws), errorInvariant (init_unit i now d)) ∧
    (∀ (m : Machine) (t : ℚ) (shift : String) (d : UpdateDraws),
      errorInvariant m → errorInvariant (update_state m t shift d)) ∧
    (∀ (m : Machine) (s : MachineState) (now r : ℚ),
      errorInvariant (force_machine m s now r)) ∧
    (∀ (m : Machine) (t : ℚ) (d : SampleDraws), errorInvariant m →
      ((generate_sensor_data m t d).error_code ≠ none ↔
        (generate_sensor_data m t d).state = "error") ∧
      ((generate_sensor_data m t d).error_description ≠ none ↔
        (generate_sensor_data m t d).state = "error")) :=
  ⟨init_unit_invariant, update_state_invariant, force_machine_invariant,
    reading_error_fields⟩

/-- Witness for C1 at a concrete machine, time and draw. -/
theorem C1_witness :
    errorInvariant (update_state mach0 60 "day" draws0) ∧
    ((generate_sensor_data machErr 0 sample0).error_code ≠ none ↔
      (generate_sensor_data machErr 0 sample0).state = "error") :=
  ⟨C1_error_state_iff_error_code.2.1 mach0 60 "day" draws0
      (by constructor <;> simp [mach0, Machine.init]),
   (C1_error_state_iff_error_code.2.2.2 machErr 0 sample0
      (by constructor <;> simp [machErr, mach0, Machine.init])).1⟩

/-- Claim C2 (amended): under the tick update `update_state`, a unit
never changes `current_state` (nor `last_state_change`, nor its error
code) before `min_state_duration[current_state]` minutes have elapsed
since `last_state_change`; forced overrides are exempt (see the
counterexample). -/
theorem C2_no_transition_before_dwell (m : Machine) (t : ℚ) (shift : String)
    (d : UpdateDraws)
    (h : (t - m.last_state_change) / 60 < min_state_duration m.current_state) :
    (update_state m t shift d).current_state = m.current_state ∧
    (update_state m t shift d).last_state_change = m.last_state_change ∧
    (update_state m t shift d).error_code = m.error_code := by
  have hs : should_change_state m t d.change_r = false := by
    unfold should_change_state
    simp [h]
  unfold update_state
  rw [apply_transition_of_no_change m t shift d hs]
  have hp := accrue_preserves m t
  exact ⟨hp.1, hp.2.2.2.2, hp.2.1⟩

/-- Witness for C2: a just-started ACTIVE unit does not move on a tick
1 minute in. -/
theorem C2_witness :
    (update_state machAct 60 "day" draws0).current_state = machAct.current_state :=
  (C2_no_transition_before_dwell machAct 60 "day" draws0
    (by norm_num [machAct, mach0, Machine.init, min_state_duration])).1

/-- Counterexample to C2 as stated: a forced override (one of the
operations that can mutate a unit) changes `current_state` with zero
minutes elapsed since `last_state_change`, far below the 15-minute
minimum dwell of ACTIVE. -/
theorem C2_counterexample :
    (0 - machAct.last_state_change) / 60 < min_state_duration machAct.current_state ∧
    machAct.current_state = .active ∧
    (force_state_change simAct "Machine_1" .idle 0 force0).2.machines.lookup
      "Machine_1" = some (force_machine machAct .idle 0 force0.err_r) ∧
    (force_machine machAct .idle 0 force0.err_r).current_state = .idle := by
  refine ⟨?_, rfl, rfl, rfl⟩
  norm_num [machAct, mach0, Machine.init, min_state_duration]

/-- Claim C5: the temperature and pressure of every produced reading are
non-negative, for every machine configuration and every draw. -/
theorem C5_readings_nonneg (m : Machine) (t : ℚ) (d : SampleDraws) :
    0 ≤ (generate_sensor_data m t d).temperature ∧
    0 ≤ (generate_sensor_data m t d).pressure := by
  constructor
  · have : (generate_sensor_data m t d).temperature =
        round2q (max 0 ((m.temp_range.1 + m.temp_range.2) / 2 + (state_variates m d).1)) := by
      simp [generate_sensor_data]
    rw [this]
    exact round2q_nonneg (le_max_left 0 _)
  · have : (generate_sensor_data m t d).pressure =
        round3q (max 0 ((m.pressure_range.1 + m.pressure_range.2) / 2 +
          (state_variates m d).2.1)) := by
      simp [generate_sensor_data]
    rw [this]
    exact round3q_nonneg (le_max_left 0 _)

/-- Claim C9: `set_simulation_speed` clamps its input into [0.1, 10]:
50 clamps to 10, 0.0001 clamps to 0.1, and any in-range input is kept. -/
theorem C9_set_speed_clamps (sim : Simulator) (speed : ℚ) :
    (1 / 10 ≤ (set_simulation_speed sim speed).simulation_speed ∧
      (set_simulation_speed sim speed).simulation_speed ≤ 10) ∧
    (set_simulation_speed sim 50).simulation_speed = 10 ∧
    (set_simulation_speed sim (1 / 10000)).simulation_speed = 1 / 10 ∧
    (1 / 10 ≤ speed → speed ≤ 10 →
      (set_simulation_speed sim speed).simulation_speed = speed) := by
  refine ⟨⟨le_max_left _ _, ?_⟩, ?_, ?_, ?_⟩
  · exact max_le (by norm_num) (min_le_left _ _)
  · show max (1 / 10) (min 10 50) = 10
    norm_num
  · show max (1 / 10) (min 10 (1 / 10000)) = 1 / 10
    norm_num
  · intro h1 h2
    show max (1 / 10) (min 10 speed) = speed
    rw [min_eq_right h2, max_eq_right h1]

/-- Witness for C9: an in-range speed of 5 is kept unchanged. -/
theorem C9_witness : (set_simulation_speed sim0 5).simulation_speed = 5 :=
  (C9_set_speed_clamps sim0 5).2.2.2 (by norm_num) (by norm_num)

theorem update_state_decomp (m : Machine) (t : ℚ) (shift : String) (d : UpdateDraws) :
    (update_state m t shift d).current_state =
      (apply_transition m t shift d).current_state ∧
    (update_state m t shift d).maintenance_cycle =
      (apply_transition m t shift d).maintenance_cycle ∧
    (update_state m t shift d).uptime_hours =
      (apply_transition m t shift d).uptime_hours +
        (if (apply_transition m t shift d).current_state = .active
         then (t - m.last_update_time) / 3600 else 0) := by
  refine ⟨(accrue_preserves _ t).1, (accrue_preserves _ t).2.2.2.1, ?_⟩
  unfold update_state
  rw [accrue_uptime, apply_transition_preserves_lut]

/-- Claim C3 (amended): under the tick update `update_state`,
`uptime_hours` is monotonically non-decreasing while the unit is ACTIVE
(given a non-decreasing timestamp), and it is reset to 0 — with the
maintenance threshold redrawn — exactly at `update_state` transitions out
of MAINTENANCE (the same tick then accrues the elapsed interval when the
new state is ACTIVE, and no reset happens at any other tick); a forced
state change never resets `uptime_hours` or the threshold, even when it
moves the unit out of MAINTENANCE (see the counterexample). -/
theorem C3_uptime_reset_behavior :
    (∀ (m : Machine) (t : ℚ) (shift : String) (d : UpdateDraws),
      m.current_state = .active → m.last_update_time ≤ t →
      m.uptime_hours ≤ (update_state m t shift d).uptime_hours) ∧
    (∀ (m : Machine) (t : ℚ) (shift : String) (d : UpdateDraws),
      m.current_state = .maintenance →
      (update_state m t shift d).current_state ≠ .maintenance →
      (update_state m t shift d).maintenance_cycle = d.maint_redraw ∧
      (update_state m t shift d).uptime_hours =
        (if (update_state m t shift d).current_state = .active
         then (t - m.last_update_time) / 3600 else 0)) ∧
    (∀ (m : Machine) (t : ℚ) (shift : String) (d : UpdateDraws),
      ¬(m.current_state = .maintenance ∧
        (update_state m t shift d).current_state ≠ .maintenance) →
      (update_state m t shift d).maintenance_cycle = m.maintenance_cycle ∧
      (update_state m t shift d).uptime_hours =
        m.uptime_hours +
          (if (update_state m t shift d).current_state = .active
           then (t - m.last_update_time) / 3600 else 0)) ∧
    (∀ (m : Machine) (s : MachineState) (now r : ℚ),
      (force_machine m s now r).uptime_hours = m.uptime_hours ∧
      (force_machine m s now r).maintenance_cycle = m.maintenance_cycle) := by
  refine ⟨?_, ?_, ?_, ?_⟩
  · intro m t shift d hact hle
    obtain ⟨hs, hc, hu⟩ := update_state_decomp m t shift d
    have hdt : 0 ≤ (t - m.last_update_time) / 3600 := by
      apply div_nonneg (sub_nonneg.mpr hle)
      norm_num
    have hxu : (apply_transition m t shift d).uptime_hours = m.uptime_hours := by
      rcases apply_transition_cases m t shift d with heq | ⟨hne, heq⟩
      · rw [heq]
      · rw [heq]
        exact (transition_to_uptime_of_not_maintenance m _ t _ _ (by simp [hact])).1
    rw [hu, hxu]
    split_ifs <;> linarith
  · intro m t shift d hm hne
    obtain ⟨hs, hc, hu⟩ := update_state_decomp m t shift d
    rcases apply_transition_cases m t shift d with heq | ⟨hne2, heq⟩
    · exact absurd (by rw [hs, heq, hm]) hne
    · have hx := transition_to_uptime_of_maintenance m
        (calculate_next_state m shift d.next) t d.maint_redraw d.err_r hm
      constructor
      · rw [hc, heq, hx.2]
      · rw [hu, hs, heq, hx.1, zero_add]
  · intro m t shift d hn
    obtain ⟨hs, hc, hu⟩ := update_state_decomp m t shift d
    rcases apply_transition_cases m t shift d with heq | ⟨hne2, heq⟩
    · constructor
      · rw [hc, heq]
      · rw [hu, hs, heq]
    · have hnm : ¬m.current_state = .maintenance := by
        intro hmm
        apply hn
        refine ⟨hmm, ?_⟩
        rw [hs, heq, (transition_to_state m _ t _ _).1]
        intro hcon
        exact hne2 (hcon.trans hmm.symm)
      have hx := transition_to_uptime_of_not_maintenance m
        (calculate_next_state m shift d.next) t d.maint_redraw d.err_r hnm
      constructor
      · rw [hc, heq, hx.2]
      · rw [hu, hs, heq, hx.1]
  · intro m s now r
    by_cases h : s = .error
    · simp only [force_machine, h, if_pos]
      exact ⟨(assign_error_code_preserves _ r).2.1, (assign_error_code_preserves _ r).2.2.1⟩
    · simp [force_machine, h]

/-- Witness for C3 at a concrete ACTIVE machine and tick. -/
theorem C3_witness :
    machAct.uptime_hours ≤ (update_state machAct 60 "day" draws0).uptime_hours :=
  C3_uptime_reset_behavior.1 machAct 60 "day" draws0 rfl
    (by norm_num [machAct, mach0, Machine.init])

/-- Counterexample to C3 as stated: a forced state change out of
MAINTENANCE (an operation causing a transition out of Maintenance) does
not reset `uptime_hours` to 0 and does not redraw the threshold. -/
theorem C3_counterexample :
    machMaint.current_state = .maintenance ∧
    (force_state_change sim0 "Machine_1" .active 0 force0).2.machines.lookup
      "Machine_1" = some (force_machine machMaint .active 0 force0.err_r) ∧
    (force_machine machMaint .active 0 force0.err_r).current_state = .active ∧
    (force_machine machMaint .active 0 force0.err_r).uptime_hours = 5 ∧
    ¬(force_machine machMaint .active 0 force0.err_r).uptime_hours = 0 ∧
    (force_machine machMaint .active 0 force0.err_r).maintenance_cycle =
      machMaint.maintenance_cycle := by
  refine ⟨rfl, rfl, rfl, rfl, ?_, rfl⟩
  rw [show (force_machine machMaint .active 0 force0.err_r).uptime_hours = 5 from rfl]
  norm_num

theorem lookup_setEntry_self {α : Type} (l : List (String × α)) (k : String) (v : α) :
    (setEntry l k v).lookup k = some v := by
  induction l with
  | nil => simp [setEntry, List.lookup]
  | cons p rest ih =>
    obtain ⟨a, b⟩ := p
    by_cases h : a == k
    · simp only [setEntry, h, if_pos]
      simp [List.lookup]
    · have h2 : (k == a) = false := by
        rw [Bool.eq_false_iff]
        intro hk
        rw [beq_iff_eq] at hk
        rw [Bool.not_eq_true, Bool.eq_false_iff] at h
        exact h (by rw [beq_iff_eq]; exact hk.symm)
      rw [Bool.not_eq_true] at h
      simp only [setEntry, h, if_neg, Bool.false_eq_true, not_false_iff]
      simp [List.lookup, h2, ih]

theorem force_machine_fields (m : Machine) (s : MachineState) (now r : ℚ) :
    (force_machine m s now r).current_state = s ∧
    (force_machine m s now r).last_state_change = now ∧
    (s = .error →
      (force_machine m s now r).error_code =
        choose_error_code (weights_for_choice m.product_type.value) r ∧
      (force_machine m s now r).error_code ≠ none) ∧
    (¬s = .error →
      (force_machine m s now r).error_code = none ∧
      (force_machine m s now r).error_description = none) := by
  by_cases h : s = .error
  · simp only [force_machine, h, if_pos]
    obtain ⟨c, hc, hmem, heq⟩ :=
      assign_error_code_fields { m with current_state := s, last_state_change := now } r
    rw [show ({ m with current_state := s, last_state_change := now } :
        Machine).product_type.value = m.product_type.value from rfl] at hc
    subst h
    refine ⟨?_, ?_, fun _ => ⟨?_, ?_⟩, fun hcon => (hcon (by trivial)).elim⟩
    · rw [heq]
    · rw [heq]
    · rw [heq, hc]
    · rw [heq]
      simp
  · simp [force_machine, h]

/-- Claim C4: `force_state_change` returns false and changes nothing for
an unknown machine id; for a known id it returns true, immediately sets
the unit's state and `last_state_change`, assigns an error code exactly
when the forced state is ERROR (clearing the error fields otherwise), and
immediately republishes that unit's snapshot entry, whose state field is
the forced state and whose error_code is null when the forced state is
not ERROR. -/
theorem C4_force_state_contract (sim : Simulator) (machine_id : String)
    (s : MachineState) (now : ℚ) (d : ForceDraws) :
    (sim.machines.lookup machine_id = none →
      force_state_change sim machine_id s now d = (false, sim)) ∧
    (∀ m, sim.machines.lookup machine_id = some m →
      (force_state_change sim machine_id s now d).1 = true ∧
      (force_state_change sim machine_id s now d).2.machines.lookup machine_id =
        some (force_machine m s now d.err_r) ∧
      (force_machine m s now d.err_r).current_state = s ∧
      (force_machine m s now d.err_r).last_state_change = now ∧
      (s = .error → (force_machine m s now d.err_r).error_code ≠ none) ∧
      (¬s = .error → (force_machine m s now d.err_r).error_code = none ∧
        (force_machine m s now d.err_r).error_description = none) ∧
      (force_state_change sim machine_id s now d).2.latest_snapshot.lookup machine_id =
        some (generate_sensor_data (force_machine m s now d.err_r) now d.sample) ∧
      (generate_sensor_data (force_machine m s now d.err_r) now d.sample).state =
        s.value ∧
      (¬s = .error →
        (generate_sensor_data (force_machine m s now d.err_r) now d.sample).error_code =
          none)) := by
  constructor
  · intro h
    simp [force_state_change, h]
  · intro m hm
    have hf := force_machine_fields m s now d.err_r
    refine ⟨by simp [force_state_change, hm], ?_, hf.1, hf.2.1,
      fun he => ((hf.2.2.1 he).2), fun hne => hf.2.2.2 hne, ?_, ?_, ?_⟩
    · simp only [force_state_change, hm]
      exact lookup_setEntry_self _ _ _
    · simp only [force_state_change, hm]
      exact lookup_setEntry_self _ _ _
    · simp [generate_sensor_data, hf.1]
    · intro hne
      have hs := hf.1
      simp [generate_sensor_data, hs, hne]

/-- Witness for C4: forcing a known machine to MAINTENANCE succeeds and
republishes; forcing an unknown id fails and leaves the simulator
unchanged. -/
theorem C4_witness :
    force_state_change sim0 "NoSuchId" .idle 0 force0 = (false, sim0) ∧
    (force_state_change sim0 "Machine_1" .maintenance 0 force0).1 = true ∧
    (generate_sensor_data (force_machine machMaint .maintenance 0 force0.err_r) 0
        force0.sample).state = "maintenance" ∧
    (generate_sensor_data (force_machine machMaint .maintenance 0 force0.err_r) 0
        force0.sample).error_code = none :=
  ⟨(C4_force_state_contract sim0 "NoSuchId" .idle 0 force0).1 rfl,
   ((C4_force_state_contract sim0 "Machine_1" .maintenance 0 force0).2 machMaint rfl).1,
   ((C4_force_state_contract sim0 "Machine_1" .maintenance 0 force0).2 machMaint
      rfl).2.2.2.2.2.2.2.1,
   ((C4_force_state_contract sim0 "Machine_1" .maintenance 0 force0).2 machMaint
      rfl).2.2.2.2.2.2.2.2 (by simp)⟩

/-- Claim C10: forcing a machine to its current state is not a no-op —
for every known id and every state `s`, `force_state_change`
unconditionally resets `last_state_change` to the current time, redraws
the error code from the draw when `s` is ERROR even if the machine is
already in ERROR, and republishes the snapshot entry; there is no
same-state guard in the definition. -/
theorem C10_force_same_state_not_noop (sim : Simulator) (machine_id : String)
    (m : Machine) (s : MachineState) (now : ℚ) (d : ForceDraws)
    (hm : sim.machines.lookup machine_id = some m) :
    (force_state_change sim machine_id s now d).1 = true ∧
    (force_state_change sim machine_id s now d).2.machines.lookup machine_id =
      some (force_machine m s now d.err_r) ∧
    (force_machine m s now d.err_r).last_state_change = now ∧
    (force_machine m s now d.err_r).current_state = s ∧
    (s = .error →
      (force_machine m s now d.err_r).error_code =
        choose_error_code (weights_for_choice m.product_type.value) d.err_r) ∧
    (force_state_change sim machine_id s now d).2.latest_snapshot.lookup machine_id =
      some (generate_sensor_data (force_machine m s now d.err_r) now d.sample) := by
  have hf := force_machine_fields m s now d.err_r
  refine ⟨by simp [force_state_change, hm], ?_, hf.2.1, hf.1,
    fun he => (hf.2.2.1 he).1, ?_⟩
  · simp only [force_state_change, hm]
    exact lookup_setEntry_self _ _ _
  · simp only [force_state_change, hm]
    exact lookup_setEntry_self _ _ _

/-! ### Concrete weight tables, evaluated -/

theorem wfc_polyethylene : weights_for_choice "Polyethylene" =
    [("E101", 4 / 10), ("E102", 3 / 10), ("E103", 2 / 10), ("E104", 1 / 10), ("E105", 0)] :=
  rfl

theorem wfc_pvc : weights_for_choice "PVC" =
    [("E101", 5 / 10), ("E102", 2 / 10), ("E103", 2 / 10), ("E104", 0), ("E105", 1 / 10)] :=
  rfl

theorem wfc_polypropylene : weights_for_choice "Polypropylene" =
    [("E101", 2 / 10), ("E102", 4 / 10), ("E103", 1 / 10), ("E104", 3 / 10), ("E105", 0)] :=
  rfl

theorem wfc_polystyrene : weights_for_choice "Polystyrene" =
    [("E101", 2 / 10), ("E102", 3 / 10), ("E103", 0), ("E104", 4 / 10), ("E105", 1 / 10)] :=
  rfl

theorem wfc_abs : weights_for_choice "ABS" =
    [("E101", 2 / 10), ("E102", 1 / 10), ("E103", 4 / 10), ("E104", 3 / 10), ("E105", 0)] :=
  rfl

theorem possible_errors_ne_nil_of_product (p : ProductType) :
    possible_errors (weights_for_choice p.value) ≠ [] := by
  have key : ∀ (w : List (String × ℚ)) (wt : ℚ),
      ("E101", wt) ∈ w → 0 < wt → possible_errors w ≠ [] := by
    intro w wt hmem hpos
    exact List.ne_nil_of_mem
      (List.mem_filter.mpr ⟨hmem, by simp only [decide_eq_true_eq]; exact hpos⟩)
  cases p
  · exact key _ (4 / 10)
      (by show ("E101", (4 : ℚ) / 10) ∈ weights_for_choice "Polyethylene"
          rw [wfc_polyethylene]; simp) (by norm_num)
  · exact key _ (2 / 10)
      (by show ("E101", (2 : ℚ) / 10) ∈ weights_for_choice "Polypropylene"
          rw [wfc_polypropylene]; simp) (by norm_num)
  · exact key _ (5 / 10)
      (by show ("E101", (5 : ℚ) / 10) ∈ weights_for_choice "PVC"
          rw [wfc_pvc]; simp) (by norm_num)
  · exact key _ (2 / 10)
      (by show ("E101", (2 : ℚ) / 10) ∈ weights_for_choice "Polystyrene"
          rw [wfc_polystyrene]; simp) (by norm_num)
  · exact key _ (2 / 10)
      (by show ("E101", (2 : ℚ) / 10) ∈ weights_for_choice "ABS"
          rw [wfc_abs]; simp) (by norm_num)

theorem isEmpty_false_of_ne_nil {α : Type} {l : List α} (h : l ≠ []) :
    l.isEmpty = false := by
  cases l with
  | nil => exact absurd rfl h
  | cons a t => rfl

theorem assign_error_code_pos_weight (m : Machine) (r : ℚ) :
    ∃ c wt, (assign_error_code m r).error_code = some c ∧
      (c, wt) ∈ weights_for_choice m.product_type.value ∧ 0 < wt := by
  have hne := possible_errors_ne_nil_of_product m.product_type
  obtain ⟨p, hp, hpick⟩ :=
    weighted_pick_mem (possible_errors (weights_for_choice m.product_type.value)) r hne
  have hchoose :
      choose_error_code (weights_for_choice m.product_type.value) r = some p.1 := by
    unfold choose_error_code
    simp [isEmpty_false_of_ne_nil hne, hpick]
  obtain ⟨c, hc2, _, hassign⟩ := assign_error_code_fields m r
  have hcp : c = p.1 := by
    rw [hchoose] at hc2
    exact (Option.some_inj.mp hc2).symm
  refine ⟨p.1, p.2, ?_, ?_, (mem_possible_errors hp).2⟩
  · rw [hassign, hcp]
  · simpa using (mem_possible_errors hp).1

/-- Claim C8: the assigned error code always has strictly positive weight
in the product's weight table (in particular Polyethylene is never
assigned E105); a product absent from the table uses the default vector;
an empty eligible set falls back to the default vector's positive
entries, which are never empty (so the first-catalog-entry fallback is
dead); and the assigned code is always a non-null key of the catalog. -/
theorem C8_error_code_weights :
    (∀ (m : Machine) (r : ℚ), ∃ c wt,
      (assign_error_code m r).error_code = some c ∧
      (c, wt) ∈ weights_for_choice m.product_type.value ∧ 0 < wt) ∧
    (∀ (m : Machine) (r : ℚ), m.product_type = .polyethylene →
      ¬(assign_error_code m r).error_code = some "E105") ∧
    (∀ s : String, product_error_weights.lookup s = none →
      specific_weights s = default_weights) ∧
    (∀ (w : List (String × ℚ)) (r : ℚ), possible_errors w = [] →
      ∃ c wt, choose_error_code w r = some c ∧ (c, wt) ∈ default_weights ∧ 0 < wt) ∧
    possible_errors default_weights ≠ [] ∧
    (∀ (m : Machine) (r : ℚ), ∃ c,
      (assign_error_code m r).error_code = some c ∧
      c ∈ ERROR_CODES.map Prod.fst) := by
  refine ⟨assign_error_code_pos_weight, ?_, ?_, ?_, possible_default_ne_nil, ?_⟩
  · intro m r hpe hcon
    obtain ⟨c, wt, hcode, hmem, hpos⟩ := assign_error_code_pos_weight m r
    rw [hcode] at hcon
    rw [Option.some_inj.mp hcon] at hmem
    rw [hpe] at hmem
    rw [show ProductType.polyethylene.value = "Polyethylene" from rfl,
      wfc_polyethylene] at hmem
    simp only [List.mem_cons, List.not_mem_nil, or_false, Prod.mk.injEq] at hmem
    rcases hmem with ⟨h, _⟩ | ⟨h, _⟩ | ⟨h, _⟩ | ⟨h, _⟩ | ⟨_, h⟩
    · exact absurd h (by simp)
    · exact absurd h (by simp)
    · exact absurd h (by simp)
    · exact absurd h (by simp)
    · rw [h] at hpos
      exact absurd hpos (by norm_num)
  · intro s h
    unfold specific_weights
    rw [h]
    rfl
  · intro w r h
    obtain ⟨p, hp, hpick⟩ :=
      weighted_pick_mem (possible_errors default_weights) r possible_default_ne_nil
    refine ⟨p.1, p.2, ?_, by simpa using (mem_possible_errors hp).1,
      (mem_possible_errors hp).2⟩
    unfold choose_error_code
    simp [h, isEmpty_false_of_ne_nil possible_default_ne_nil, hpick]
  · intro m r
    obtain ⟨c, _, hmem, hassign⟩ := assign_error_code_fields m r
    exact ⟨c, by rw [hassign], hmem⟩

/-- Witness for C8 at a concrete Polyethylene machine, an unknown product
string, and an empty weight list. -/
theorem C8_witness :
    (¬(assign_error_code machErr (1 / 2)).error_code = some "E105") ∧
    specific_weights "Widget" = default_weights ∧
    (∃ c wt, choose_error_code [] (1 / 2) = some c ∧
      (c, wt) ∈ default_weights ∧ 0 < wt) :=
  ⟨C8_error_code_weights.2.1 machErr (1 / 2) rfl,
   C8_error_code_weights.2.2.1 "Widget" rfl,
   C8_error_code_weights.2.2.2.1 [] (1 / 2) rfl⟩

/-! ### Row normalization (claim C6) -/

theorem rowTotal_map_div (l : List (MachineState × ℚ)) (c : ℚ) :
    rowTotal (l.map fun p => (p.1, p.2 / c)) = rowTotal l / c := by
  induction l with
  | nil => simp [rowTotal]
  | cons x xs ih =>
    simp only [List.map_cons, rowTotal, List.sum_cons] at ih ⊢
    rw [ih, add_div]

theorem normalizeRow_sums_to_one (l : List (MachineState × ℚ)) (h : rowTotal l ≠ 0) :
    rowTotal (normalizeRow l) = 1 := by
  unfold normalizeRow
  rw [rowTotal_map_div, div_self h]

theorem modifiedRow_total_pos (s : MachineState) (shift : String) :
    0 < rowTotal (modifiedRow s shift) := by
  unfold modifiedRow shiftFactors
  split_ifs <;> cases s <;> norm_num [transitionRow, rowTotal]

/-- Claim C6: for every state and every shift string, the shift-modified
transition row has positive total (the degenerate zero-total guard is
never hit), the renormalised row sums exactly to 1 — and in general any
row with non-zero total renormalises to sum 1 — and next-state selection
always returns one of the four machine states. -/
theorem C6_transition_row_normalization (s : MachineState) (shift : String) :
    0 < rowTotal (modifiedRow s shift) ∧
    (∀ l : List (MachineState × ℚ), rowTotal l ≠ 0 → rowTotal (normalizeRow l) = 1) ∧
    rowTotal (normalizeRow (modifiedRow s shift)) = 1 ∧
    (∀ (m : Machine) (d : NextDraws),
      calculate_next_state m shift d = .active ∨
      calculate_next_state m shift d = .idle ∨
      calculate_next_state m shift d = .maintenance ∨
      calculate_next_state m shift d = .error) := by
  refine ⟨modifiedRow_total_pos s shift, fun l h => normalizeRow_sums_to_one l h,
    normalizeRow_sums_to_one _ (ne_of_gt (modifiedRow_total_pos s shift)), ?_⟩
  intro m d
  cases hcase : calculate_next_state m shift d <;> simp

/-- Witness for C6: the unmodified ACTIVE row already sums to 1, so its
renormalisation sums to 1. -/
theorem C6_witness : rowTotal (normalizeRow (transitionRow MachineState.active)) = 1 :=
  (C6_transition_row_normalization .active "day").2.1 _
    (by norm_num [transitionRow, rowTotal])

/-! ### Claim C7 -/

theorem round2q_gt_of_lt (b x : ℚ) (h : b + 1 / 200 < x) : b < round2q x := by
  have := round2q_lb x
  linarith

/-- Claim C7: a Polyethylene machine with temperature range (85, 125) in
ERROR with code E101 always samples cooling_status "OK" and a temperature
strictly above the midpoint of its range, for every E101 temperature
draw; and cooling_status is "FAIL" exactly when the error code is E105. -/
theorem C7_e101_reading :
    (∀ (m : Machine) (t : ℚ) (d : SampleDraws),
      m.product_type = .polyethylene → m.temp_range = (85, 125) →
      m.current_state = .error → m.error_code = some "E101" →
      0 ≤ d.u_temp → d.u_temp ≤ 1 →
      (generate_sensor_data m t d).cooling_status = "OK" ∧
      (m.temp_range.1 + m.temp_range.2) / 2 < (generate_sensor_data m t d).temperature) ∧
    (∀ (m : Machine) (t : ℚ) (d : SampleDraws),
      (generate_sensor_data m t d).cooling_status = "FAIL" ↔
        m.error_code = some "E105") := by
  constructor
  · intro m t d hp hr hs hc h0 h1
    constructor
    · simp [generate_sensor_data, hc]
    · have hv : (state_variates m d).1 = unif 15 25 d.u_temp := by
        simp [state_variates, hs, hc]
      have htemp : (generate_sensor_data m t d).temperature =
          round2q (max 0 ((m.temp_range.1 + m.temp_range.2) / 2 +
            (state_variates m d).1)) := by
        simp [generate_sensor_data]
      have hunif : 15 ≤ unif 15 25 d.u_temp := by
        have h10 : (0 : ℚ) ≤ (25 - 15) * d.u_temp := mul_nonneg (by norm_num) h0
        unfold unif
        linarith
      rw [htemp, hv, hr]
      have hmid : (((85 : ℚ), (125 : ℚ)).1 + ((85 : ℚ), (125 : ℚ)).2) / 2 = 105 := by
        norm_num
      rw [hmid]
      have hmax : max 0 ((105 : ℚ) + unif 15 25 d.u_temp) =
          105 + unif 15 25 d.u_temp := max_eq_right (by linarith)
      rw [hmax]
      apply round2q_gt_of_lt
      linarith
  · intro m t d
    by_cases hcode : m.error_code = some "E105"
    · simp [generate_sensor_data, hcode]
    · simp [generate_sensor_data, hcode]

/-- Witness for C7 at a concrete E101 Polyethylene machine with the top
temperature draw. -/
theorem C7_witness :
    (generate_sensor_data machErr 0 sample0).cooling_status = "OK" ∧
    (machErr.temp_range.1 + machErr.temp_range.2) / 2 <
      (generate_sensor_data machErr 0 sample0).temperature :=
  C7_e101_reading.1 machErr 0 sample0 rfl rfl rfl rfl (by norm_num [sample0])
    (by norm_num [sample0])

/-! ### Evaluation of a concrete error-code redraw (claim C10 witness) -/

theorem possible_pe : possible_errors (weights_for_choice "Polyethylene") =
    [("E101", 4 / 10), ("E102", 3 / 10), ("E103", 2 / 10), ("E104", 1 / 10)] := by
  rw [wfc_polyethylene]
  norm_num [possible_errors, List.filter]

theorem choose_pe_half :
    choose_error_code (weights_for_choice "Polyethylene") (1 / 2) = some "E102" := by
  unfold choose_error_code
  rw [possible_pe]
  norm_num [weighted_pick, List.isEmpty]

/-- Witness for C10: forcing the ERROR machine `machErr` (already in
ERROR with code E101) back to ERROR succeeds, resets the dwell clock to
the new time, and replaces the code E101 by the freshly drawn E102. -/
theorem C10_witness :
    (force_state_change simErr "Machine_1" .error 7 force0).1 = true ∧
    (force_machine machErr .error 7 force0.err_r).last_state_change = 7 ∧
    machErr.current_state = .error ∧
    machErr.error_code = some "E101" ∧
    (force_machine machErr .error 7 force0.err_r).error_code = some "E102" := by
  have h := C10_force_same_state_not_noop simErr "Machine_1" machErr .error 7 force0 rfl
  refine ⟨h.1, h.2.2.1, rfl, rfl, ?_⟩
  rw [h.2.2.2.2.1 rfl]
  rw [show machErr.product_type.value = "Polyethylene" from rfl]
  exact choose_pe_half

end SensorDataAPI
